import Mathlib

/-!
Verification of the parmacl command-line parser (src/src/parser.rs, src/src/arg.rs,
src/src/lib.rs and src/parmacl/src/parse_state.rs) against its specification.

The scanner state machine, the matcher-resolution algorithm and the result model are
embedded as executable Lean definitions translated from the Rust source.  Machine
integers are Nat (the counters can only grow, no overflow-relevant arithmetic occurs).
Fallible code returns Except.  The literal-versus-regex text-matching primitive
(RegexOrText.is_match) and the error-message text catalog are external collaborators
of the core per the specification; the former is embedded as an injected capability
(a function of the text and the case-sensitivity flag), the latter by keeping the
error identifier together with the single extra text the source passes to it.

Rust's char.is_whitespace (Unicode White_Space) is modelled by Lean's
Char.isWhitespace; the two agree on all characters exercised here.

A Rust panic (an out-of-Result abort) is modelled by a distinguished failure
constructor for the scanner, and by an Option-wrapping (none = panic) for the
string-slicing routine of src/parmacl/src/parse_state.rs.
-/

/-- Modelled from the spec: regex_or_text.rs is not under src/.  Per the spec, the
literal-vs-regular-expression text-matching primitive is an external collaborator,
"treated as an injected capability: match(text, case_sensitive) -> bool".  It is
embedded as exactly that function. -/
structure RegexOrText where
  is_match : String → Bool → Bool

/-- Modelled from the spec: matcher.rs is not under src/.  The option-has-value policy
enum with four variants, as named at its use sites in src/src/parser.rs and described
in spec section 3 (Never | IfPossible | two Always variants). -/
inductive OptionHasValue where
  | Never
  | IfPossible
  | AlwaysAndValueCanStartWithOptionAnnouncer
  | AlwaysButValueMustNotStartWithOptionAnnouncer
deriving DecidableEq, Repr

/-- Modelled from the spec: matcher.rs is not under src/.  The kind filter enum
(Option | Parameter) used by try_match_option_or_parameter in src/src/parser.rs. -/
inductive OptionOrParameter where
  | option
  | parameter
deriving DecidableEq, Repr

/-- Modelled from the spec: matcher.rs is not under src/.  The matcher record, with
the optional filter fields read by src/src/parser.rs (arg_indices,
option_or_parameter, option_indices, param_indices, option_codes, option_has_value,
value_text) and the name taken by Matcher::new.  Absence of a filter field means
"matches anything" (spec section 3).  The opaque per-kind tag payload is
caller-defined and uninterpreted per the spec and is not part of the embedding. -/
structure Matcher where
  name : String
  arg_indices : Option (List Nat)
  option_or_parameter : Option OptionOrParameter
  option_indices : Option (List Nat)
  param_indices : Option (List Nat)
  option_codes : Option (List RegexOrText)
  option_has_value : Option OptionHasValue
  value_text : Option RegexOrText

/-- Modelled from the spec: matcher.rs is not under src/.  Matcher::new(name) as used
by Parser::new for the fallback matcher: every optional field absent. -/
def Matcher.new (name : String) : Matcher :=
  ⟨name, none, none, none, none, none, none, none⟩

/-- Modelled from the spec: matcher.rs is not under src/.  DEFAULT_OPTION_HAS_VALUE,
the policy used when a matcher leaves option_has_value unset; the spec gives the
default as IfPossible. -/
def DEFAULT_OPTION_HAS_VALUE : OptionHasValue := OptionHasValue.IfPossible

/-- Modelled from the spec: error.rs is not under src/.  The error kinds of spec
section 7, restricted to the identifiers raised in src/src/parser.rs and
src/parmacl/src/parse_state.rs. -/
inductive ErrorId where
  | NoCodeAfterOptionAnnouncer
  | OptionCodeMissingDoubleAnnouncer
  | NoMatchSupportsValueForOptionCode
  | OptionValueCannotBeginWithOptionAnnouncer
  | QuotedParamNotFollowedByWhitespaceChar
  | QuotedOptionValueNotFollowedByWhitespaceChar
  | ParamMissingClosingQuoteCharacter
  | OptionValueMissingClosingQuoteCharacter
  | InvalidEscapedCharacterInParam
  | InvalidEscapedCharacterInOptionValue
  | UnmatchedOption
  | UnmatchedParam
deriving DecidableEq, Repr

/-- Modelled from the spec: error.rs (Error::to_text) is not under src/ and the
error-message text catalog/formatting is out of scope per spec section 1.  An error
text is therefore embedded by its content: the error identifier together with the
single optional extra string that src/src/parser.rs passes to to_text. -/
abbrev ErrorText : Type := ErrorId × Option String

/-- Outcome of a failed scan: either a structured error (the value handed to
Error::to_text by create_error in src/src/parser.rs) or a Rust panic reached
during parsing (the unreachable arm in
can_option_have_value_with_first_char_with_matcher). -/
inductive ParseFail where
  | err (e : ErrorText)
  | panicked (site : String)

/-- Outer scanner states of the src/src version (parser.rs line 135 starts in
NotInArg; the enum is consumed by process_char). -/
inductive ArgParseState where
  | NotInArg
  | InParam
  | InParamPossibleEndQuote
  | InParamEscaped
  | InOption
deriving DecidableEq, Repr

/-- Inner option-scan states of the src/src version (parser.rs line 136 starts in
Announced). -/
inductive OptionParseState where
  | Announced
  | InCode
  | WaitOptionValue
  | InValue
  | InValuePossibleEndQuote
  | InValueEscaped
deriving DecidableEq, Repr

/-- The transient scan cursor exactly as constructed by Parser::parse
(src/src/parser.rs lines 132-149). -/
structure ParseState where
  multi_char_option_code_requires_double_announcer : Bool
  line_len : Nat
  arg_parse_state : ArgParseState
  option_parse_state : OptionParseState
  arg_line_char_idx : Nat
  start_idx : Nat
  option_announcer_char : Char
  option_code : String
  option_value_announcer_is_ambiguous : Bool
  current_option_value_may_be_param : Bool
  value_quoted : Bool
  value_bldr : String
  option_termination_chars : List Char
  arg_count : Nat
  option_count : Nat
  param_count : Nat

/-- OptionProperties from src/src/arg.rs: an emitted option argument.  The opaque tag
type parameters are dropped (uninterpreted payload, out of scope per the spec). -/
structure OptionProperties where
  matcher : Matcher
  line_char_index : Nat
  arg_index : Nat
  option_index : Nat
  code : String
  value_text : Option String

/-- ParamProperties from src/src/arg.rs: an emitted parameter argument. -/
structure ParamProperties where
  matcher : Matcher
  line_char_index : Nat
  arg_index : Nat
  param_index : Nat
  value_text : String

/-- Arg from src/src/arg.rs: one element of the result sequence. -/
inductive Arg where
  | param (p : ParamProperties)
  | option (p : OptionProperties)

/-- The parser configuration, mirroring the public fields of struct Parser in
src/src/parser.rs plus its matcher list. -/
structure Parser where
  quote_char : Char
  option_announcer_chars : List Char
  option_codes_case_sensitive : Bool
  multi_char_option_code_requires_double_announcer : Bool
  option_value_announcer_chars : List Char
  option_values_case_sensitive : Bool
  option_values_can_start_with_option_announcer_char : Bool
  params_case_sensitive : Bool
  params_can_start_with_option_announcer_char : Bool
  embed_quote_char_with_double : Bool
  escape_char : Option Char
  parse_terminate_chars : List Char
  matchers : List Matcher

/-- The fallback matcher constructed by Parser::new: Matcher::new(""). -/
def fallback_matcher : Matcher := Matcher.new ""

/-- Parser::new of src/src/parser.rs: the default configuration (the DEFAULT_*
constants of lines 13-24), parameterised by the matcher list the caller adds. -/
def Parser.new (matchers : List Matcher) : Parser :=
  { quote_char := '"'
  , option_announcer_chars := ['-']
  , option_codes_case_sensitive := false
  , multi_char_option_code_requires_double_announcer := false
  , option_value_announcer_chars := [' ']
  , option_values_case_sensitive := false
  , option_values_can_start_with_option_announcer_char := false
  , params_case_sensitive := false
  , params_can_start_with_option_announcer_char := false
  , embed_quote_char_with_double := true
  , escape_char := none
  , parse_terminate_chars := ['<', '>', '|']
  , matchers := matchers }

/-- The option termination character array built once per parse by
create_option_termination_char_array (src/src/parser.rs lines 423-430): the quote
char, then the value announcer chars, then the parse terminate chars. -/
def create_option_termination_char_array (cfg : Parser) : List Char :=
  [cfg.quote_char] ++ cfg.option_value_announcer_chars ++ cfg.parse_terminate_chars

/-- try_match_index (src/src/parser.rs lines 718-724): an absent index filter matches
anything; a present one requires membership. -/
def try_match_index (index : Nat) (matcher_indices : Option (List Nat)) : Bool :=
  match matcher_indices with
  | some unwrapped => unwrapped.contains index
  | none => true

/-- try_match_option_or_parameter (src/src/parser.rs lines 726-732). -/
def try_match_option_or_parameter (value : OptionOrParameter)
    (matcher_value : Option OptionOrParameter) : Bool :=
  match matcher_value with
  | some unwrapped => unwrapped = value
  | none => true

/-- try_match_option_code (src/src/parser.rs lines 734-745): an absent code filter
matches anything; a present one requires some pattern to match the code under
option_codes_case_sensitive. -/
def try_match_option_code (cfg : Parser) (code : String)
    (matcher_codes : Option (List RegexOrText)) : Bool :=
  match matcher_codes with
  | some unwrapped => unwrapped.any (fun mc => mc.is_match code cfg.option_codes_case_sensitive)
  | none => true

/-- try_match_value_text (src/src/parser.rs lines 747-753).  Note: the source passes
option_codes_case_sensitive to is_match here, for option values and params alike. -/
def try_match_value_text (cfg : Parser) (value_text : String)
    (matcher_value_text : Option RegexOrText) : Bool :=
  match matcher_value_text with
  | some mv => mv.is_match value_text cfg.option_codes_case_sensitive
  | none => true

/-- create_error (src/src/parser.rs lines 755-758): the error value is what the
source hands to Error::to_text — the error id and one optional extra text. -/
def create_error (error_id : ErrorId) (extra : Option String) : ErrorText :=
  (error_id, extra)

/-- try_match_option_excluding_value (src/src/parser.rs lines 698-706). -/
def try_match_option_excluding_value (cfg : Parser) (st : ParseState) (matcher : Matcher) : Bool :=
  try_match_index st.arg_count matcher.arg_indices
  && try_match_option_or_parameter OptionOrParameter.option matcher.option_or_parameter
  && try_match_index st.option_count matcher.option_indices
  && try_match_option_code cfg st.option_code matcher.option_codes

/-- try_match_param (src/src/parser.rs lines 708-716). -/
def try_match_param (cfg : Parser) (st : ParseState) (matcher : Matcher) : Bool :=
  try_match_index st.arg_count matcher.arg_indices
  && try_match_option_or_parameter OptionOrParameter.parameter matcher.option_or_parameter
  && try_match_index st.param_count matcher.param_indices
  && try_match_value_text cfg st.value_bldr matcher.value_text

/-- can_option_code_have_value_with_matcher (src/src/parser.rs lines 445-452). -/
def can_option_code_have_value_with_matcher (cfg : Parser) (st : ParseState)
    (matcher : Matcher) : Bool :=
  if try_match_option_excluding_value cfg st matcher then
    (matcher.option_has_value.getD DEFAULT_OPTION_HAS_VALUE) != OptionHasValue.Never
  else
    false

/-- can_option_code_have_value (src/src/parser.rs lines 432-443): the fallback
matcher is consulted when the matcher list is empty. -/
def can_option_code_have_value (cfg : Parser) (st : ParseState) : Bool :=
  if cfg.matchers.isEmpty then
    can_option_code_have_value_with_matcher cfg st fallback_matcher
  else
    cfg.matchers.any (fun matcher => can_option_code_have_value_with_matcher cfg st matcher)

/-- The Must / Possibly / MustNot classification enum of src/src/parser.rs
lines 761-765. -/
inductive OptionHasValueBasedOnFirstChar where
  | Must
  | Possibly
  | MustNot
deriving DecidableEq, Repr

/-- Message of the unreachable arm reached below; the Rust macro aborts the process
when executed. -/
def never_branch_site : String :=
  "can_option_have_value_with_first_char_with_matcher: Never branch"

/-- can_option_have_value_with_first_char_with_matcher (src/src/parser.rs
lines 472-511).  The Never arm is Rust's unreachable. macro, which panics if
executed; it is embedded as the panicked failure. -/
def can_option_have_value_with_first_char_with_matcher (cfg : Parser) (st : ParseState)
    (first_char_of_value_is_option_announcer : Bool) (matcher : Matcher) :
    Except ParseFail OptionHasValueBasedOnFirstChar :=
  if try_match_option_excluding_value cfg st matcher then
    match matcher.option_has_value.getD DEFAULT_OPTION_HAS_VALUE with
    | OptionHasValue.AlwaysButValueMustNotStartWithOptionAnnouncer =>
      if first_char_of_value_is_option_announcer then
        .error (.err (create_error ErrorId.OptionValueCannotBeginWithOptionAnnouncer (some st.option_code)))
      else
        .ok OptionHasValueBasedOnFirstChar.Must
    | OptionHasValue.AlwaysAndValueCanStartWithOptionAnnouncer =>
      .ok OptionHasValueBasedOnFirstChar.Must
    | OptionHasValue.IfPossible =>
      if st.option_value_announcer_is_ambiguous then
        if first_char_of_value_is_option_announcer then
          .ok OptionHasValueBasedOnFirstChar.MustNot
        else
          .ok OptionHasValueBasedOnFirstChar.Possibly
      else
        if first_char_of_value_is_option_announcer then
          .error (.err (create_error ErrorId.OptionValueCannotBeginWithOptionAnnouncer (some st.option_code)))
        else
          .ok OptionHasValueBasedOnFirstChar.Must
    | OptionHasValue.Never =>
      .error (.panicked never_branch_site)
  else
    .ok OptionHasValueBasedOnFirstChar.MustNot

/-- The matcher-list loop of can_option_have_value_with_first_char (src/src/parser.rs
lines 459-468): Must short-circuits, Possibly is remembered, errors propagate. -/
def can_option_have_value_with_first_char_loop (cfg : Parser) (st : ParseState)
    (first_char_of_value_is_option_announcer : Bool) :
    List Matcher → OptionHasValueBasedOnFirstChar →
    Except ParseFail OptionHasValueBasedOnFirstChar
  | [], has_value => .ok has_value
  | matcher :: rest, has_value =>
    match can_option_have_value_with_first_char_with_matcher cfg st
        first_char_of_value_is_option_announcer matcher with
    | .error e => .error e
    | .ok OptionHasValueBasedOnFirstChar.Must => .ok OptionHasValueBasedOnFirstChar.Must
    | .ok OptionHasValueBasedOnFirstChar.Possibly =>
      can_option_have_value_with_first_char_loop cfg st
        first_char_of_value_is_option_announcer rest OptionHasValueBasedOnFirstChar.Possibly
    | .ok OptionHasValueBasedOnFirstChar.MustNot =>
      can_option_have_value_with_first_char_loop cfg st
        first_char_of_value_is_option_announcer rest has_value

/-- can_option_have_value_with_first_char (src/src/parser.rs lines 454-470). -/
def can_option_have_value_with_first_char (cfg : Parser) (st : ParseState)
    (first_char_of_value_is_option_announcer : Bool) :
    Except ParseFail OptionHasValueBasedOnFirstChar :=
  if cfg.matchers.isEmpty then
    can_option_have_value_with_first_char_with_matcher cfg st
      first_char_of_value_is_option_announcer fallback_matcher
  else
    can_option_have_value_with_first_char_loop cfg st
      first_char_of_value_is_option_announcer cfg.matchers
      OptionHasValueBasedOnFirstChar.MustNot

/-- try_match_option (src/src/parser.rs lines 616-665). -/
def try_match_option (cfg : Parser) (st : ParseState) (has_value : Bool)
    (matcher : Matcher) : Bool :=
  if try_match_option_excluding_value cfg st matcher then
    match matcher.option_has_value.getD DEFAULT_OPTION_HAS_VALUE with
    | OptionHasValue.AlwaysAndValueCanStartWithOptionAnnouncer =>
      if has_value then try_match_value_text cfg st.value_bldr matcher.value_text else false
    | OptionHasValue.AlwaysButValueMustNotStartWithOptionAnnouncer =>
      if has_value then try_match_value_text cfg st.value_bldr matcher.value_text else false
    | OptionHasValue.IfPossible =>
      if has_value then try_match_value_text cfg st.value_bldr matcher.value_text else true
    | OptionHasValue.Never =>
      !has_value
  else
    false

/-- try_find_option_matcher (src/src/parser.rs lines 608-614). -/
def try_find_option_matcher (cfg : Parser) (st : ParseState) (has_value : Bool) :
    Option Matcher :=
  if cfg.matchers.isEmpty then
    some fallback_matcher
  else
    cfg.matchers.find? (fun matcher => try_match_option cfg st has_value matcher)

/-- add_option_arg (src/src/parser.rs lines 586-606): push an Option result built
from the current counters, then increment the arg and option counters. -/
def add_option_arg (st : ParseState) (has_value : Bool) (matcher : Matcher)
    (args : List Arg) : ParseState × List Arg :=
  let value_text := if has_value then some st.value_bldr else none
  let properties : OptionProperties :=
    { matcher := matcher
    , line_char_index := st.arg_line_char_idx
    , arg_index := st.arg_count
    , option_index := st.option_count
    , code := st.option_code
    , value_text := value_text }
  ({ st with arg_count := st.arg_count + 1, option_count := st.option_count + 1 },
   args ++ [Arg.option properties])

/-- add_param_arg (src/src/parser.rs lines 682-696). -/
def add_param_arg (st : ParseState) (matcher : Matcher) (args : List Arg) :
    ParseState × List Arg :=
  let properties : ParamProperties :=
    { matcher := matcher
    , line_char_index := st.arg_line_char_idx
    , arg_index := st.arg_count
    , param_index := st.param_count
    , value_text := st.value_bldr }
  ({ st with arg_count := st.arg_count + 1, param_count := st.param_count + 1 },
   args ++ [Arg.param properties])

/-- match_param_arg (src/src/parser.rs lines 667-680). -/
def match_param_arg (cfg : Parser) (st : ParseState) (args : List Arg) :
    Except ParseFail (ParseState × List Arg) :=
  let optioned_matcher :=
    if cfg.matchers.isEmpty then
      some fallback_matcher
    else
      cfg.matchers.find? (fun matcher => try_match_param cfg st matcher)
  match optioned_matcher with
  | some matcher => .ok (add_param_arg st matcher args)
  | none => .error (.err (create_error ErrorId.UnmatchedParam (some (toString st.arg_count))))

/-- match_option_arg (src/src/parser.rs lines 563-584): resolve the completed option;
when the value fails to match and the value may have been a parameter (ambiguous
whitespace announcer), retry value-less and re-resolve the buffered text as a Param. -/
def match_option_arg (cfg : Parser) (st : ParseState) (has_value : Bool)
    (args : List Arg) : Except ParseFail (ParseState × List Arg) :=
  match try_find_option_matcher cfg st has_value with
  | some matcher => .ok (add_option_arg st has_value matcher args)
  | none =>
    if has_value && st.current_option_value_may_be_param then
      match try_find_option_matcher cfg st false with
      | some matcher =>
        let (st1, args1) := add_option_arg st false matcher args
        match_param_arg cfg st1 args1
      | none => .error (.err (create_error ErrorId.UnmatchedOption (some st.option_code)))
    else
      .error (.err (create_error ErrorId.UnmatchedOption (some st.option_code)))

/-- Modelled from the spec: the parse_state module imported by src/src/parser.rs is
not under src/ (only its caller and the sibling version src/parmacl/src/parse_state.rs
are).  Per spec section 5 indices are counted in code points, so the raw option code
is the code points of the line from start_idx (just after the announcer) up to the
ending index (the boundary character, or line_len when absent), and per the code
normalization rule of spec section 4.2: when "multi-char requires doubled announcer"
is set, a single-character code is accepted regardless of announcer identity except
that a lone announcer yields an empty code, and a multi-character code must start
with the announcer char, else the parse fails with the double-announcer error. -/
def ParseState.set_option_code (st : ParseState) (line : String)
    (optional_ending_index : Option Nat) : Except ParseFail ParseState :=
  let ending_index := optional_ending_index.getD st.line_len
  let raw_option_code : String := ⟨(line.toList.take ending_index).drop st.start_idx⟩
  match raw_option_code.toList with
  | [] => .ok { st with option_code := "" }
  | first_char :: rest_chars =>
    if !st.multi_char_option_code_requires_double_announcer then
      .ok { st with option_code := raw_option_code }
    else
      if rest_chars.isEmpty then
        if first_char = st.option_announcer_char then
          .ok { st with option_code := "" }
        else
          .ok { st with option_code := raw_option_code }
      else
        if first_char = st.option_announcer_char then
          .ok { st with option_code := raw_option_code }
        else
          .error (.err (create_error ErrorId.OptionCodeMissingDoubleAnnouncer
            (some raw_option_code)))

/-- The NotInArg arm of process_char (src/src/parser.rs lines 233-262).  It touches
only the scan cursor, never the result list, and never fails; the returned Bool is
the "more" flag (false only on a parse-terminate char). -/
def process_char_not_in_arg (cfg : Parser) (st : ParseState) (char_idx : Nat)
    (line_char : Char) : Bool × ParseState :=
  if line_char = cfg.quote_char then
    (true, { st with arg_parse_state := ArgParseState.InParam
                   , arg_line_char_idx := char_idx
                   , start_idx := char_idx
                   , value_bldr := ""
                   , value_quoted := true })
  else
    if cfg.option_announcer_chars.contains line_char then
      (true, { st with arg_parse_state := ArgParseState.InOption
                     , option_parse_state := OptionParseState.Announced
                     , option_announcer_char := line_char
                     , arg_line_char_idx := char_idx
                     , start_idx := char_idx + 1 })
    else
      if cfg.parse_terminate_chars.contains line_char then
        (false, st)
      else
        if !line_char.isWhitespace then
          (true, { st with arg_parse_state := ArgParseState.InParam
                         , arg_line_char_idx := char_idx
                         , start_idx := char_idx
                         , value_bldr := String.singleton line_char
                         , value_quoted := false })
        else
          (true, st)

/-- The InValue arm of process_char (src/src/parser.rs lines 368-391), also entered
by replay from begin_parsing_option_value. -/
def process_char_in_value (cfg : Parser) (st : ParseState) (line_char : Char)
    (args : List Arg) : Except ParseFail (Bool × ParseState × List Arg) :=
  if cfg.escape_char = some line_char then
    .ok (true, { st with option_parse_state := OptionParseState.InValueEscaped }, args)
  else
    if st.value_quoted then
      if line_char = cfg.quote_char then
        .ok (true, { st with option_parse_state := OptionParseState.InValuePossibleEndQuote }, args)
      else
        .ok (true, { st with value_bldr := st.value_bldr.push line_char }, args)
    else
      if !line_char.isWhitespace then
        .ok (true, { st with value_bldr := st.value_bldr.push line_char }, args)
      else
        match match_option_arg cfg st true args with
        | .error e => .error e
        | .ok (st1, args1) =>
          .ok (true, { st1 with arg_parse_state := ArgParseState.NotInArg }, args1)

/-- begin_parsing_option_value (src/src/parser.rs lines 416-421): clear the buffer,
mark the value unquoted, enter InValue and re-dispatch the same character (which the
source does by a recursive process_char call that lands in the InValue arm). -/
def begin_parsing_option_value (cfg : Parser) (st : ParseState) (line_char : Char)
    (args : List Arg) : Except ParseFail (Bool × ParseState × List Arg) :=
  process_char_in_value cfg
    { st with value_bldr := "", value_quoted := false
            , option_parse_state := OptionParseState.InValue }
    line_char args

/-- process_char (src/src/parser.rs lines 229-414).  The source's two recursive
re-dispatches are unfolded into the helper for the state they re-enter: the MustNot
branch of WaitOptionValue sets the outer state to NotInArg and replays the character
(process_char_not_in_arg), and begin_parsing_option_value sets InValue and replays
(process_char_in_value). -/
def process_char (cfg : Parser) (st : ParseState) (line : String) (char_idx : Nat)
    (line_char : Char) (args : List Arg) :
    Except ParseFail (Bool × ParseState × List Arg) :=
  match st.arg_parse_state with
  | ArgParseState.NotInArg =>
    let (more, st1) := process_char_not_in_arg cfg st char_idx line_char
    .ok (more, st1, args)
  | ArgParseState.InParam =>
    if cfg.escape_char = some line_char then
      .ok (true, { st with arg_parse_state := ArgParseState.InParamEscaped }, args)
    else
      if st.value_quoted then
        if line_char = cfg.quote_char then
          .ok (true, { st with arg_parse_state := ArgParseState.InParamPossibleEndQuote }, args)
        else
          .ok (true, { st with value_bldr := st.value_bldr.push line_char }, args)
      else
        if !line_char.isWhitespace then
          .ok (true, { st with value_bldr := st.value_bldr.push line_char }, args)
        else
          match match_param_arg cfg st args with
          | .error e => .error e
          | .ok (st1, args1) =>
            .ok (true, { st1 with arg_parse_state := ArgParseState.NotInArg }, args1)
  | ArgParseState.InParamPossibleEndQuote =>
    if line_char = cfg.quote_char && cfg.embed_quote_char_with_double then
      .ok (true, { st with value_bldr := st.value_bldr.push line_char
                         , arg_parse_state := ArgParseState.InParam }, args)
    else
      if line_char.isWhitespace then
        match match_param_arg cfg st args with
        | .error e => .error e
        | .ok (st1, args1) =>
          .ok (true, { st1 with arg_parse_state := ArgParseState.NotInArg }, args1)
      else
        .error (.err (create_error ErrorId.QuotedParamNotFollowedByWhitespaceChar
          (some st.value_bldr)))
  | ArgParseState.InParamEscaped =>
    .ok (true, { st with value_bldr := st.value_bldr.push line_char
                       , arg_parse_state := ArgParseState.InParam }, args)
  | ArgParseState.InOption =>
    match st.option_parse_state with
    | OptionParseState.Announced =>
      if line_char.isWhitespace || st.option_termination_chars.contains line_char then
        .error (.err (create_error ErrorId.NoCodeAfterOptionAnnouncer
          (some (toString char_idx))))
      else
        .ok (true, { st with option_parse_state := OptionParseState.InCode }, args)
    | OptionParseState.InCode =>
      let option_value_announced := cfg.option_value_announcer_chars.contains line_char
      let line_char_is_whitespace := line_char.isWhitespace
      if option_value_announced || line_char_is_whitespace
          || st.option_termination_chars.contains line_char then
        match st.set_option_code line (some char_idx) with
        | .error e => .error e
        | .ok st1 =>
          if st1.option_code.isEmpty then
            .error (.err (create_error ErrorId.NoCodeAfterOptionAnnouncer
              (some (toString char_idx))))
          else
            if option_value_announced then
              let st2 := { st1 with option_value_announcer_is_ambiguous := line_char_is_whitespace }
              if can_option_code_have_value cfg st2 then
                .ok (true, { st2 with option_parse_state := OptionParseState.WaitOptionValue }, args)
              else
                if st2.option_value_announcer_is_ambiguous then
                  match match_option_arg cfg
                      { st2 with current_option_value_may_be_param := false } false args with
                  | .error e => .error e
                  | .ok (st3, args3) =>
                    .ok (true, { st3 with arg_parse_state := ArgParseState.NotInArg }, args3)
                else
                  .error (.err (create_error ErrorId.NoMatchSupportsValueForOptionCode
                    (some st2.option_code)))
            else
              match match_option_arg cfg
                  { st1 with current_option_value_may_be_param := false } false args with
              | .error e => .error e
              | .ok (st3, args3) =>
                .ok (true, { st3 with arg_parse_state := ArgParseState.NotInArg }, args3)
      else
        .ok (true, st, args)
    | OptionParseState.WaitOptionValue =>
      if !line_char.isWhitespace then
        let first_char_of_value_is_option_announcer :=
          cfg.option_value_announcer_chars.contains line_char
        match can_option_have_value_with_first_char cfg st
            first_char_of_value_is_option_announcer with
        | .error e => .error e
        | .ok OptionHasValueBasedOnFirstChar.Must =>
          begin_parsing_option_value cfg
            { st with current_option_value_may_be_param := false } line_char args
        | .ok OptionHasValueBasedOnFirstChar.Possibly =>
          begin_parsing_option_value cfg
            { st with current_option_value_may_be_param := true } line_char args
        | .ok OptionHasValueBasedOnFirstChar.MustNot =>
          match match_option_arg cfg
              { st with current_option_value_may_be_param := false } false args with
          | .error e => .error e
          | .ok (st1, args1) =>
            let st2 := { st1 with arg_parse_state := ArgParseState.NotInArg }
            let (more, st3) := process_char_not_in_arg cfg st2 char_idx line_char
            .ok (more, st3, args1)
      else
        .ok (true, st, args)
    | OptionParseState.InValue =>
      process_char_in_value cfg st line_char args
    | OptionParseState.InValuePossibleEndQuote =>
      if line_char = cfg.quote_char && cfg.embed_quote_char_with_double then
        .ok (true, { st with value_bldr := st.value_bldr.push line_char
                           , option_parse_state := OptionParseState.InValue }, args)
      else
        if line_char.isWhitespace then
          match match_option_arg cfg st true args with
          | .error e => .error e
          | .ok (st1, args1) =>
            .ok (true, { st1 with arg_parse_state := ArgParseState.NotInArg }, args1)
        else
          .error (.err (create_error ErrorId.QuotedOptionValueNotFollowedByWhitespaceChar
            (some st.option_code)))
    | OptionParseState.InValueEscaped =>
      .ok (true, { st with value_bldr := st.value_bldr.push line_char
                         , option_parse_state := OptionParseState.InValue }, args)

/-- The character loop of Parser::parse (src/src/parser.rs lines 151-161): advance
the code-point index only while "more" holds; a false "more" discards the rest of
the line. -/
def parse_loop (cfg : Parser) (line : String) :
    List Char → Nat → ParseState → List Arg →
    Except ParseFail (ParseState × List Arg)
  | [], _, st, args => .ok (st, args)
  | line_char :: rest, char_idx, st, args =>
    match process_char cfg st line char_idx line_char args with
    | .error e => .error e
    | .ok (more, st1, args1) =>
      if more then
        parse_loop cfg line rest (char_idx + 1) st1 args1
      else
        .ok (st1, args1)

/-- The end-of-input finalization of Parser::parse (src/src/parser.rs
lines 163-224). -/
def parse_finalize (cfg : Parser) (line : String) (st : ParseState)
    (args : List Arg) : Except ParseFail (List Arg) :=
  match st.arg_parse_state with
  | ArgParseState.NotInArg => .ok args
  | ArgParseState.InParam =>
    if st.value_quoted then
      .error (.err (create_error ErrorId.ParamMissingClosingQuoteCharacter none))
    else
      match match_param_arg cfg st args with
      | .error e => .error e
      | .ok (_, args1) => .ok args1
  | ArgParseState.InParamPossibleEndQuote =>
    match match_param_arg cfg st args with
    | .error e => .error e
    | .ok (_, args1) => .ok args1
  | ArgParseState.InParamEscaped =>
    .error (.err (create_error ErrorId.InvalidEscapedCharacterInParam (some st.option_code)))
  | ArgParseState.InOption =>
    match st.option_parse_state with
    | OptionParseState.Announced =>
      .error (.err (create_error ErrorId.NoCodeAfterOptionAnnouncer
        (some (toString st.line_len))))
    | OptionParseState.InCode =>
      match st.set_option_code line none with
      | .error e => .error e
      | .ok st1 =>
        match match_option_arg cfg st1 false args with
        | .error e => .error e
        | .ok (_, args1) => .ok args1
    | OptionParseState.WaitOptionValue =>
      match can_option_have_value_with_first_char cfg st false with
      | .error e => .error e
      | .ok OptionHasValueBasedOnFirstChar.Must =>
        .error (.err (create_error ErrorId.NoMatchSupportsValueForOptionCode
          (some st.option_code)))
      | .ok OptionHasValueBasedOnFirstChar.Possibly =>
        match match_option_arg cfg
            { st with current_option_value_may_be_param := false } false args with
        | .error e => .error e
        | .ok (_, args1) => .ok args1
      | .ok OptionHasValueBasedOnFirstChar.MustNot =>
        match match_option_arg cfg
            { st with current_option_value_may_be_param := false } false args with
        | .error e => .error e
        | .ok (_, args1) => .ok args1
    | OptionParseState.InValue =>
      if st.value_quoted then
        .error (.err (create_error ErrorId.OptionValueMissingClosingQuoteCharacter
          (some st.option_code)))
      else
        match match_option_arg cfg st true args with
        | .error e => .error e
        | .ok (_, args1) => .ok args1
    | OptionParseState.InValuePossibleEndQuote =>
      match match_option_arg cfg st true args with
      | .error e => .error e
      | .ok (_, args1) => .ok args1
    | OptionParseState.InValueEscaped =>
      .error (.err (create_error ErrorId.InvalidEscapedCharacterInOptionValue
        (some st.option_code)))

/-- The initial scan cursor of Parser::parse (src/src/parser.rs lines 132-149). -/
def initial_parse_state (cfg : Parser) (line : String) : ParseState :=
  { multi_char_option_code_requires_double_announcer :=
      cfg.multi_char_option_code_requires_double_announcer
  , line_len := line.length
  , arg_parse_state := ArgParseState.NotInArg
  , option_parse_state := OptionParseState.Announced
  , arg_line_char_idx := 0
  , start_idx := 0
  , option_announcer_char := '\x00'
  , option_code := ""
  , option_value_announcer_is_ambiguous := false
  , current_option_value_may_be_param := false
  , value_quoted := false
  , value_bldr := ""
  , option_termination_chars := create_option_termination_char_array cfg
  , arg_count := 0
  , option_count := 0
  , param_count := 0 }

/-- Parser::parse (src/src/parser.rs lines 129-227): run the character loop from
code-point index 0 over the line, then finalize whatever is open. -/
def parse (cfg : Parser) (line : String) : Except ParseFail (List Arg) :=
  match parse_loop cfg line line.toList 0 (initial_parse_state cfg line) [] with
  | .error e => .error e
  | .ok (st, args) => parse_finalize cfg line st args

namespace Parmacl

/-- Outer scanner states of the src/parmacl version
(src/parmacl/src/parse_state.rs lines 4-12). -/
inductive ArgParseState where
  | WaitBinary
  | WaitOptionOrParam
  | InParam
  | InParamPossibleEndQuote
  | InParamEscaped
  | InOption
deriving DecidableEq, Repr

/-- Inner option-scan states of the src/parmacl version
(src/parmacl/src/parse_state.rs lines 14-21). -/
inductive OptionParseState where
  | InCode
  | WaitOptionValue
  | InValue
  | InValuePossibleEndQuote
  | InValueEscaped
deriving DecidableEq, Repr

/-- Modelled from the spec: parse_error.rs is not under src/; the record of
ParseError is reconstructed from the arguments its constructors receive at the call
sites in src/parmacl/src/parse_state.rs (lines 117-123) and from spec section 7's
error-context sentence.  new_option receives the error id, the code-point offset,
the arg ordinal, the option ordinal and the option code; new_param receives the
error id, the offset, the arg ordinal, the option ordinal (sic, per line 122) and
the buffered value text. -/
structure ParseError where
  error_id : ErrorId
  line_char_idx : Nat
  arg_idx : Nat
  other_idx : Nat
  text : String
deriving Repr

/-- ParseError::new_option as invoked by create_option_error. -/
def ParseError.new_option (error_id : ErrorId) (line_char_idx arg_idx option_idx : Nat)
    (option_code : String) : ParseError :=
  ⟨error_id, line_char_idx, arg_idx, option_idx, option_code⟩

/-- ParseError::new_param as invoked by create_param_error. -/
def ParseError.new_param (error_id : ErrorId) (line_char_idx arg_idx other_idx : Nat)
    (value_text : String) : ParseError :=
  ⟨error_id, line_char_idx, arg_idx, other_idx, value_text⟩

/-- The scan cursor of the src/parmacl version
(src/parmacl/src/parse_state.rs lines 23-43). -/
structure ParseState where
  multi_char_option_code_requires_double_announcer : Bool
  line : String
  line_len : Nat
  arg_parse_state : ArgParseState
  option_parse_state : OptionParseState
  line_char_idx : Nat
  arg_start_line_char_idx : Nat
  option_code_start_line_char_idx : Nat
  arg_quote_char : Char
  option_announcer_char : Char
  option_code : String
  option_value_announcer_is_ambiguous : Bool
  current_option_value_may_be_param : Bool
  value_quoted : Bool
  value_bldr : String
  arg_count : Nat
  option_count : Nat
  param_count : Nat
  current_param_is_binary : Bool

/-- ParseState::new (src/parmacl/src/parse_state.rs lines 46-72).  line_len is the
code-point count of the line (line.chars().count()). -/
def ParseState.new (line : String) (first_arg_is_binary : Bool)
    (multi_char_option_code_requires_double_announcer : Bool) : ParseState :=
  { multi_char_option_code_requires_double_announcer :=
      multi_char_option_code_requires_double_announcer
  , line := line
  , line_len := line.length
  , arg_parse_state :=
      if first_arg_is_binary then ArgParseState.WaitBinary else ArgParseState.WaitOptionOrParam
  , option_parse_state := OptionParseState.InCode
  , line_char_idx := 0
  , arg_start_line_char_idx := 0
  , option_code_start_line_char_idx := 0
  , arg_quote_char := '\x00'
  , option_announcer_char := '\x00'
  , option_code := ""
  , option_value_announcer_is_ambiguous := false
  , current_option_value_may_be_param := false
  , value_quoted := false
  , value_bldr := ""
  , arg_count := 0
  , option_count := 0
  , param_count := 0
  , current_param_is_binary := false }

/-- create_option_error (src/parmacl/src/parse_state.rs lines 117-119): the error
carries the code-point offset, the arg ordinal, the option ordinal and the option
code. -/
def create_option_error (st : ParseState) (error_id : ErrorId) : ParseError :=
  ParseError.new_option error_id st.line_char_idx st.arg_count st.option_count st.option_code

/-- create_param_error (src/parmacl/src/parse_state.rs lines 121-123): the error
carries the code-point offset, the arg ordinal, the OPTION ordinal (the source
passes option_count, not param_count) and the buffered value text. -/
def create_param_error (st : ParseState) (error_id : ErrorId) : ParseError :=
  ParseError.new_param error_id st.line_char_idx st.arg_count st.option_count st.value_bldr

end Parmacl

/-- Dropping a number of BYTES from a character list, as Rust's str-slicing start
bound does: none models the Rust panic raised when the byte index is out of bounds
or not on a UTF-8 character boundary. -/
def byteDrop : List Char → Nat → Option (List Char)
  | cs, 0 => some cs
  | [], _ + 1 => none
  | c :: cs, n + 1 =>
    if c.utf8Size ≤ n + 1 then byteDrop cs (n + 1 - c.utf8Size) else none

/-- Taking a number of BYTES from a character list, as Rust's str-slicing end bound
does: none models the Rust boundary panic. -/
def byteTake : List Char → Nat → Option (List Char)
  | _, 0 => some []
  | [], _ + 1 => none
  | c :: cs, n + 1 =>
    if c.utf8Size ≤ n + 1 then
      (byteTake cs (n + 1 - c.utf8Size)).map (fun rest => c :: rest)
    else
      none

/-- Rust's &line[start..ending] on a &str: start and ending are BYTE offsets; a
start beyond the ending, an offset beyond the end of the string, or an offset that
falls inside a multi-byte UTF-8 character panics (modelled as none). -/
def rustStrSlice (line : String) (start ending : Nat) : Option String :=
  if start ≤ ending then
    match byteDrop line.toList start with
    | none => none
    | some dropped =>
      match byteTake dropped (ending - start) with
      | none => none
      | some taken => some ⟨taken⟩
  else
    none

/-- set_option_code of the src/parmacl version (src/parmacl/src/parse_state.rs
lines 74-111), byte-faithfully: the raw code is &line[start..ending] where start and
ending are the CODE-POINT counters option_code_start_line_char_idx and the optional
ending index (defaulting to line_len, itself a code-point count), interpreted by
Rust as byte offsets; none models the panic that slicing raises when those counters
are not byte boundaries.  The one-char test is exactly the source's
`announcer_is_one_char_only = raw_option_iterator.next() != None` (true when a
SECOND character exists). -/
def Parmacl.set_option_code (st : Parmacl.ParseState)
    (optional_ending_index : Option Nat) :
    Option (Except Parmacl.ParseError Parmacl.ParseState) :=
  let ending_index := optional_ending_index.getD st.line_len
  match rustStrSlice st.line st.option_code_start_line_char_idx ending_index with
  | none => none
  | some raw_option_code =>
    some (match raw_option_code.toList with
      | [] => .ok { st with option_code := "" }
      | first_char :: rest_chars =>
        if !st.multi_char_option_code_requires_double_announcer then
          .ok { st with option_code := raw_option_code }
        else
          let first_char_is_announcer := first_char = st.option_announcer_char
          let announcer_is_one_char_only := !rest_chars.isEmpty
          if announcer_is_one_char_only then
            if first_char_is_announcer then
              .ok { st with option_code := "" }
            else
              .ok { st with option_code := raw_option_code }
          else
            let st1 := { st with option_code := raw_option_code }
            if first_char_is_announcer then
              .ok st1
            else
              .error (Parmacl.create_option_error st1 ErrorId.OptionCodeMissingDoubleAnnouncer))

/-- A literal text pattern: one concrete instance of the injected RegexOrText
capability, matching exactly the given text, case-insensitively when the flag is
false. -/
def lit (s : String) : RegexOrText :=
  ⟨fun text case_sensitive =>
    if case_sensitive then text == s
    else text.toList.map Char.toLower == s.toList.map Char.toLower⟩

/-- A pattern instance that rejects every text. -/
def reject_all : RegexOrText := ⟨fun _ _ => false⟩

/-- A matcher for option code x with the IfPossible has-value policy and no value
pattern. -/
def mx_if : Matcher :=
  { Matcher.new "x" with option_codes := some [lit "x"]
                       , option_has_value := some OptionHasValue.IfPossible }

/-- A matcher for option code x, IfPossible, whose value pattern rejects every
value text. -/
def mx_rej : Matcher := { mx_if with value_text := some reject_all }

/-- A matcher accepting any parameter. -/
def m_param_any : Matcher :=
  { Matcher.new "p" with option_or_parameter := some OptionOrParameter.parameter }

/-- A matcher accepting only option code a (and, lacking a kind filter, any
parameter). -/
def m_only_a : Matcher :=
  { Matcher.new "a" with option_codes := some [lit "a"] }

/-- A matcher for option code x whose value must not start with an option
announcer. -/
def mx_always_not : Matcher :=
  { Matcher.new "x" with option_codes := some [lit "x"]
                       , option_has_value :=
                           some OptionHasValue.AlwaysButValueMustNotStartWithOptionAnnouncer }

/-- A matcher for option code x with the Never has-value policy. -/
def m_never_x : Matcher :=
  { Matcher.new "never" with option_codes := some [lit "x"]
                           , option_has_value := some OptionHasValue.Never }

/-- A parameter matcher whose value pattern is the literal A. -/
def m_paramA : Matcher :=
  { Matcher.new "pa" with option_or_parameter := some OptionOrParameter.parameter
                        , value_text := some (lit "A") }

/-- The result sequence of parsing "a -b c -d" with the default configuration and
no matchers: a param, an option with a value, and a value-less option. -/
def c6_witness_args : List Arg :=
  [Arg.param ⟨fallback_matcher, 0, 0, 0, "a"⟩,
   Arg.option ⟨fallback_matcher, 2, 1, 0, "b", some "c"⟩,
   Arg.option ⟨fallback_matcher, 7, 2, 1, "d", none⟩]

/-- The configuration with only the two announcer-start permission flags changed
(src/src/parser.rs lines 65 and 67). -/
def set_announcer_start_flags (cfg : Parser) (b₁ b₂ : Bool) : Parser :=
  { cfg with option_values_can_start_with_option_announcer_char := b₁
           , params_can_start_with_option_announcer_char := b₂ }

/-- A scan cursor in the InOption/InCode state over the default configuration, as
reached after the announcer and first code character of "-q". -/
def c8_witness_state : ParseState :=
  { initial_parse_state (Parser.new []) "-q" with
      arg_parse_state := ArgParseState.InOption
    , option_parse_state := OptionParseState.InCode }

/-- The configuration of claim C2's failing input: the equals sign announces option
values, the dash announces options, and the only matcher requires a value that must
not start with an option announcer. -/
def cfg_c2 : Parser :=
  { Parser.new [mx_always_not] with option_value_announcer_chars := ['='] }

/-- The configuration of claim C4's failing input: option codes case sensitive,
params case insensitive, one parameter matcher whose value pattern is the literal
A. -/
def cfg_c4_codes_cs : Parser :=
  { Parser.new [m_paramA] with option_codes_case_sensitive := true }

/-- The same configuration with params_case_sensitive additionally set. -/
def cfg_c4_both_cs : Parser :=
  { cfg_c4_codes_cs with params_case_sensitive := true }

/-- The configuration of claim C7's counterexample: the equals sign (not
whitespace) announces option values, one matcher with code x and IfPossible. -/
def cfg_c7_eq : Parser :=
  { Parser.new [mx_if] with option_value_announcer_chars := ['='] }

/-- The arg ordinal recorded in a result element (ArgProperties::get_arg_index of
src/src/arg.rs). -/
def arg_index_of : Arg → Nat
  | Arg.param p => p.arg_index
  | Arg.option p => p.arg_index

/-- The Option elements of a result sequence, in order. -/
def options_of (args : List Arg) : List OptionProperties :=
  args.filterMap (fun a => match a with | Arg.option p => some p | Arg.param _ => none)

/-- The Param elements of a result sequence, in order. -/
def params_of (args : List Arg) : List ParamProperties :=
  args.filterMap (fun a => match a with | Arg.param p => some p | Arg.option _ => none)

/-- The ordinal property of spec section 8: element i carries arg ordinal i, the
k-th option carries option ordinal k, the k-th param carries param ordinal k. -/
def ArgsOrdered (args : List Arg) : Prop :=
  args.map arg_index_of = List.range args.length ∧
  (options_of args).map OptionProperties.option_index = List.range (options_of args).length ∧
  (params_of args).map ParamProperties.param_index = List.range (params_of args).length

/-- The scan invariant: the three monotonic counters equal the respective emitted
counts and the emitted sequence is correctly ordinaled. -/
def WellOrdinaled (st : ParseState) (args : List Arg) : Prop :=
  st.arg_count = args.length ∧
  st.option_count = (options_of args).length ∧
  st.param_count = (params_of args).length ∧
  ArgsOrdered args

theorem options_of_append_option (args : List Arg) (p : OptionProperties) :
    options_of (args ++ [Arg.option p]) = options_of args ++ [p] := by
  simp [options_of]

theorem options_of_append_param (args : List Arg) (p : ParamProperties) :
    options_of (args ++ [Arg.param p]) = options_of args := by
  simp [options_of]

theorem params_of_append_param (args : List Arg) (p : ParamProperties) :
    params_of (args ++ [Arg.param p]) = params_of args ++ [p] := by
  simp [params_of]

theorem params_of_append_option (args : List Arg) (p : OptionProperties) :
    params_of (args ++ [Arg.option p]) = params_of args := by
  simp [params_of]

theorem well_ordinaled_transport {st st' : ParseState} {args : List Arg}
    (hw : WellOrdinaled st args)
    (ha : st'.arg_count = st.arg_count) (ho : st'.option_count = st.option_count)
    (hp : st'.param_count = st.param_count) : WellOrdinaled st' args := by
  obtain ⟨h1, h2, h3, h4⟩ := hw
  exact ⟨ha.trans h1, ho.trans h2, hp.trans h3, h4⟩

theorem add_option_arg_inv {st : ParseState} {args : List Arg}
    (has_value : Bool) (matcher : Matcher) (hw : WellOrdinaled st args) :
    WellOrdinaled (add_option_arg st has_value matcher args).1
      (add_option_arg st has_value matcher args).2 := by
  obtain ⟨h1, h2, h3, h4, h5, h6⟩ := hw
  unfold add_option_arg
  refine ⟨?_, ?_, ?_, ?_, ?_, ?_⟩
  · simp [h1]
  · simp [options_of_append_option, h2]
  · simp [params_of_append_option, h3]
  · simp [List.range_succ, h4, arg_index_of, h1]
  · simp [options_of_append_option, List.range_succ, h5, h2]
  · simp [params_of_append_option, h6]

theorem add_param_arg_inv {st : ParseState} {args : List Arg}
    (matcher : Matcher) (hw : WellOrdinaled st args) :
    WellOrdinaled (add_param_arg st matcher args).1 (add_param_arg st matcher args).2 := by
  obtain ⟨h1, h2, h3, h4, h5, h6⟩ := hw
  unfold add_param_arg
  refine ⟨?_, ?_, ?_, ?_, ?_, ?_⟩
  · simp [h1]
  · simp [options_of_append_param, h2]
  · simp [params_of_append_param, h3]
  · simp [List.range_succ, h4, arg_index_of, h1]
  · simp [options_of_append_param, h5]
  · simp [params_of_append_param, List.range_succ, h6, h3]

theorem match_param_arg_inv {cfg : Parser} {st : ParseState} {args : List Arg}
    {st' : ParseState} {args' : List Arg}
    (h : match_param_arg cfg st args = .ok (st', args'))
    (hw : WellOrdinaled st args) : WellOrdinaled st' args' := by
  simp only [match_param_arg] at h
  split at h
  · rename_i matcher heq
    injection h with h1
    have hadd := add_param_arg_inv matcher hw
    rw [h1] at hadd
    exact hadd
  · cases h

theorem match_option_arg_inv {cfg : Parser} {st : ParseState} {args : List Arg}
    {has_value : Bool} {st' : ParseState} {args' : List Arg}
    (h : match_option_arg cfg st has_value args = .ok (st', args'))
    (hw : WellOrdinaled st args) : WellOrdinaled st' args' := by
  unfold match_option_arg at h
  split at h
  · rename_i matcher heq
    injection h with h1
    have hadd := add_option_arg_inv has_value matcher hw
    rw [h1] at hadd
    exact hadd
  · split at h
    · split at h
      · rename_i matcher heq
        split at h
        · rename_i st1 args1 heq1
          have hadd := add_option_arg_inv false matcher hw
          rw [heq1] at hadd
          exact match_param_arg_inv h hadd
      · cases h
    · cases h

theorem set_option_code_inv {st : ParseState} {line : String} {e : Option Nat}
    {st1 : ParseState} {args : List Arg}
    (h : st.set_option_code line e = .ok st1)
    (hw : WellOrdinaled st args) : WellOrdinaled st1 args := by
  simp only [ParseState.set_option_code] at h
  split at h
  · injection h with h1
    exact well_ordinaled_transport hw (by rw [← h1]) (by rw [← h1]) (by rw [← h1])
  · split at h
    · injection h with h1
      exact well_ordinaled_transport hw (by rw [← h1]) (by rw [← h1]) (by rw [← h1])
    · split at h
      · split at h
        · injection h with h1
          exact well_ordinaled_transport hw (by rw [← h1]) (by rw [← h1]) (by rw [← h1])
        · injection h with h1
          exact well_ordinaled_transport hw (by rw [← h1]) (by rw [← h1]) (by rw [← h1])
      · split at h
        · injection h with h1
          exact well_ordinaled_transport hw (by rw [← h1]) (by rw [← h1]) (by rw [← h1])
        · cases h

theorem process_char_not_in_arg_inv {cfg : Parser} {st : ParseState}
    {char_idx : Nat} {line_char : Char} {args : List Arg}
    (hw : WellOrdinaled st args) :
    WellOrdinaled (process_char_not_in_arg cfg st char_idx line_char).2 args := by
  simp only [process_char_not_in_arg]
  split
  · exact well_ordinaled_transport hw rfl rfl rfl
  · split
    · exact well_ordinaled_transport hw rfl rfl rfl
    · split
      · exact well_ordinaled_transport hw rfl rfl rfl
      · split
        · exact well_ordinaled_transport hw rfl rfl rfl
        · exact well_ordinaled_transport hw rfl rfl rfl

theorem process_char_in_value_inv {cfg : Parser} {st : ParseState}
    {line_char : Char} {args : List Arg} {more : Bool} {st' : ParseState}
    {args' : List Arg}
    (h : process_char_in_value cfg st line_char args = .ok (more, st', args'))
    (hw : WellOrdinaled st args) : WellOrdinaled st' args' := by
  simp only [process_char_in_value] at h
  split at h
  · injection h with h1
    injection h1 with hmore h2
    injection h2 with hst hargs
    subst hst hargs
    exact well_ordinaled_transport hw rfl rfl rfl
  · split at h
    · split at h
      · injection h with h1
        injection h1 with hmore h2
        injection h2 with hst hargs
        subst hst hargs
        exact well_ordinaled_transport hw rfl rfl rfl
      · injection h with h1
        injection h1 with hmore h2
        injection h2 with hst hargs
        subst hst hargs
        exact well_ordinaled_transport hw rfl rfl rfl
    · split at h
      · injection h with h1
        injection h1 with hmore h2
        injection h2 with hst hargs
        subst hst hargs
        exact well_ordinaled_transport hw rfl rfl rfl
      · split at h
        · cases h
        · rename_i st1 args1 heq
          injection h with h1
          injection h1 with hmore h2
          injection h2 with hst hargs
          subst hst hargs
          exact well_ordinaled_transport (match_option_arg_inv heq hw) rfl rfl rfl

theorem begin_parsing_option_value_inv {cfg : Parser} {st : ParseState}
    {line_char : Char} {args : List Arg} {more : Bool} {st' : ParseState}
    {args' : List Arg}
    (h : begin_parsing_option_value cfg st line_char args = .ok (more, st', args'))
    (hw : WellOrdinaled st args) : WellOrdinaled st' args' := by
  simp only [begin_parsing_option_value] at h
  exact process_char_in_value_inv h (well_ordinaled_transport hw rfl rfl rfl)

theorem process_char_inv {cfg : Parser} {st : ParseState} {line : String}
    {char_idx : Nat} {line_char : Char} {args : List Arg} {more : Bool}
    {st' : ParseState} {args' : List Arg}
    (h : process_char cfg st line char_idx line_char args = .ok (more, st', args'))
    (hw : WellOrdinaled st args) : WellOrdinaled st' args' := by
  simp only [process_char] at h
  split at h
  -- NotInArg
  · injection h with h1
    injection h1 with hmore h2
    injection h2 with hst hargs
    subst hst hargs
    exact process_char_not_in_arg_inv hw
  -- InParam
  · split at h
    · injection h with h1
      injection h1 with hmore h2
      injection h2 with hst hargs
      subst hst hargs
      exact well_ordinaled_transport hw rfl rfl rfl
    · split at h
      · split at h
        · injection h with h1
          injection h1 with hmore h2
          injection h2 with hst hargs
          subst hst hargs
          exact well_ordinaled_transport hw rfl rfl rfl
        · injection h with h1
          injection h1 with hmore h2
          injection h2 with hst hargs
          subst hst hargs
          exact well_ordinaled_transport hw rfl rfl rfl
      · split at h
        · injection h with h1
          injection h1 with hmore h2
          injection h2 with hst hargs
          subst hst hargs
          exact well_ordinaled_transport hw rfl rfl rfl
        · split at h
          · cases h
          · rename_i st1 args1 heq
            injection h with h1
            injection h1 with hmore h2
            injection h2 with hst hargs
            subst hst hargs
            exact well_ordinaled_transport (match_param_arg_inv heq hw) rfl rfl rfl
  -- InParamPossibleEndQuote
  · split at h
    · injection h with h1
      injection h1 with hmore h2
      injection h2 with hst hargs
      subst hst hargs
      exact well_ordinaled_transport hw rfl rfl rfl
    · split at h
      · split at h
        · cases h
        · rename_i st1 args1 heq
          injection h with h1
          injection h1 with hmore h2
          injection h2 with hst hargs
          subst hst hargs
          exact well_ordinaled_transport (match_param_arg_inv heq hw) rfl rfl rfl
      · cases h
  -- InParamEscaped
  · injection h with h1
    injection h1 with hmore h2
    injection h2 with hst hargs
    subst hst hargs
    exact well_ordinaled_transport hw rfl rfl rfl
  -- InOption
  · split at h
    -- Announced
    · split at h
      · cases h
      · injection h with h1
        injection h1 with hmore h2
        injection h2 with hst hargs
        subst hst hargs
        exact well_ordinaled_transport hw rfl rfl rfl
    -- InCode
    · split at h
      · split at h
        · cases h
        · rename_i st1 heq1
          have hw1 := set_option_code_inv heq1 hw
          split at h
          · cases h
          · split at h
            · split at h
              · injection h with h1
                injection h1 with hmore h2
                injection h2 with hst hargs
                subst hst hargs
                exact well_ordinaled_transport hw1 rfl rfl rfl
              · split at h
                · split at h
                  · cases h
                  · rename_i st3 args3 heq2
                    injection h with h1
                    injection h1 with hmore h2
                    injection h2 with hst hargs
                    subst hst hargs
                    exact well_ordinaled_transport
                      (match_option_arg_inv heq2 (well_ordinaled_transport hw1 rfl rfl rfl))
                      rfl rfl rfl
                · cases h
            · split at h
              · cases h
              · rename_i st3 args3 heq2
                injection h with h1
                injection h1 with hmore h2
                injection h2 with hst hargs
                subst hst hargs
                exact well_ordinaled_transport
                  (match_option_arg_inv heq2 (well_ordinaled_transport hw1 rfl rfl rfl))
                  rfl rfl rfl
      · injection h with h1
        injection h1 with hmore h2
        injection h2 with hst hargs
        subst hst hargs
        exact well_ordinaled_transport hw rfl rfl rfl
    -- WaitOptionValue
    · split at h
      · split at h
        · cases h
        · exact begin_parsing_option_value_inv h (well_ordinaled_transport hw rfl rfl rfl)
        · exact begin_parsing_option_value_inv h (well_ordinaled_transport hw rfl rfl rfl)
        · split at h
          · cases h
          · rename_i st1 args1 heq
            injection h with h1
            injection h1 with hmore h2
            injection h2 with hst hargs
            subst hst hargs
            have h3 := match_option_arg_inv heq (well_ordinaled_transport hw rfl rfl rfl)
            exact process_char_not_in_arg_inv (well_ordinaled_transport h3 rfl rfl rfl)
      · injection h with h1
        injection h1 with hmore h2
        injection h2 with hst hargs
        subst hst hargs
        exact well_ordinaled_transport hw rfl rfl rfl
    -- InValue
    · exact process_char_in_value_inv h hw
    -- InValuePossibleEndQuote
    · split at h
      · injection h with h1
        injection h1 with hmore h2
        injection h2 with hst hargs
        subst hst hargs
        exact well_ordinaled_transport hw rfl rfl rfl
      · split at h
        · split at h
          · cases h
          · rename_i st1 args1 heq
            injection h with h1
            injection h1 with hmore h2
            injection h2 with hst hargs
            subst hst hargs
            exact well_ordinaled_transport (match_option_arg_inv heq hw) rfl rfl rfl
        · cases h
    -- InValueEscaped
    · injection h with h1
      injection h1 with hmore h2
      injection h2 with hst hargs
      subst hst hargs
      exact well_ordinaled_transport hw rfl rfl rfl

theorem parse_loop_inv {cfg : Parser} {line : String} (cs : List Char) :
    ∀ {char_idx : Nat} {st : ParseState} {args : List Arg} {st' : ParseState}
      {args' : List Arg},
    parse_loop cfg line cs char_idx st args = .ok (st', args') →
    WellOrdinaled st args → WellOrdinaled st' args' := by
  induction cs with
  | nil =>
    intro idx st args st' args' h hw
    simp only [parse_loop] at h
    injection h with h1
    injection h1 with hst hargs
    subst hst hargs
    exact hw
  | cons c rest ih =>
    intro idx st args st' args' h hw
    simp only [parse_loop] at h
    split at h
    · cases h
    · rename_i more1 st1 args1 heq
      split at h
      · exact ih h (process_char_inv heq hw)
      · injection h with h1
        injection h1 with hst hargs
        subst hst hargs
        exact process_char_inv heq hw

theorem parse_finalize_inv {cfg : Parser} {line : String} {st : ParseState}
    {args : List Arg} {args' : List Arg}
    (h : parse_finalize cfg line st args = .ok args')
    (hw : WellOrdinaled st args) : ArgsOrdered args' := by
  simp only [parse_finalize] at h
  split at h
  -- NotInArg
  · injection h with h1
    subst h1
    exact hw.2.2.2
  -- InParam
  · split at h
    · cases h
    · split at h
      · cases h
      · rename_i st1 args1 heq
        injection h with h1
        subst h1
        exact (match_param_arg_inv heq hw).2.2.2
  -- InParamPossibleEndQuote
  · split at h
    · cases h
    · rename_i st1 args1 heq
      injection h with h1
      subst h1
      exact (match_param_arg_inv heq hw).2.2.2
  -- InParamEscaped
  · cases h
  -- InOption
  · split at h
    · cases h
    -- InCode
    · split at h
      · cases h
      · rename_i st1 heq1
        split at h
        · cases h
        · rename_i st2 args2 heq2
          injection h with h1
          subst h1
          exact (match_option_arg_inv heq2 (set_option_code_inv heq1 hw)).2.2.2
    -- WaitOptionValue
    · split at h
      · cases h
      · cases h
      · split at h
        · cases h
        · rename_i st1 args1 heq
          injection h with h1
          subst h1
          exact (match_option_arg_inv heq (well_ordinaled_transport hw rfl rfl rfl)).2.2.2
      · split at h
        · cases h
        · rename_i st1 args1 heq
          injection h with h1
          subst h1
          exact (match_option_arg_inv heq (well_ordinaled_transport hw rfl rfl rfl)).2.2.2
    -- InValue
    · split at h
      · cases h
      · split at h
        · cases h
        · rename_i st1 args1 heq
          injection h with h1
          subst h1
          exact (match_option_arg_inv heq hw).2.2.2
    -- InValuePossibleEndQuote
    · split at h
      · cases h
      · rename_i st1 args1 heq
        injection h with h1
        subst h1
        exact (match_option_arg_inv heq hw).2.2.2
    -- InValueEscaped
    · cases h

/-- Claim C6: for every successful parse, the i-th element of the result sequence
has arg ordinal i, the k-th Option element (counting options only) has option
ordinal k, and the k-th Param element (counting params only) has param ordinal k. -/
theorem c6_result_ordinals (cfg : Parser) (line : String) (args : List Arg)
    (h : parse cfg line = .ok args) :
    args.map arg_index_of = List.range args.length ∧
    (options_of args).map OptionProperties.option_index =
      List.range (options_of args).length ∧
    (params_of args).map ParamProperties.param_index =
      List.range (params_of args).length := by
  simp only [parse] at h
  split at h
  · cases h
  · rename_i st0 args0 heq
    have hw0 : WellOrdinaled (initial_parse_state cfg line) [] := by
      refine ⟨rfl, rfl, rfl, ?_, ?_, ?_⟩ <;> simp [options_of, params_of]
    exact parse_finalize_inv h (parse_loop_inv _ heq hw0)

/-- Witness for C6: the ordinal property instantiated at the concrete parse of
"a -b c -d" under the default configuration, the parse hypothesis discharged by
evaluation. -/
theorem c6_witness :
    c6_witness_args.map arg_index_of = List.range c6_witness_args.length ∧
    (options_of c6_witness_args).map OptionProperties.option_index =
      List.range (options_of c6_witness_args).length ∧
    (params_of c6_witness_args).map ParamProperties.param_index =
      List.range (params_of c6_witness_args).length :=
  c6_result_ordinals (Parser.new []) "a -b c -d" c6_witness_args rfl

theorem saf_quote_char (cfg : Parser) (b₁ b₂ : Bool) :
    (set_announcer_start_flags cfg b₁ b₂).quote_char = cfg.quote_char := rfl

theorem saf_option_announcer_chars (cfg : Parser) (b₁ b₂ : Bool) :
    (set_announcer_start_flags cfg b₁ b₂).option_announcer_chars =
      cfg.option_announcer_chars := rfl

theorem saf_option_codes_case_sensitive (cfg : Parser) (b₁ b₂ : Bool) :
    (set_announcer_start_flags cfg b₁ b₂).option_codes_case_sensitive =
      cfg.option_codes_case_sensitive := rfl

theorem saf_multi_char (cfg : Parser) (b₁ b₂ : Bool) :
    (set_announcer_start_flags cfg b₁ b₂).multi_char_option_code_requires_double_announcer =
      cfg.multi_char_option_code_requires_double_announcer := rfl

theorem saf_option_value_announcer_chars (cfg : Parser) (b₁ b₂ : Bool) :
    (set_announcer_start_flags cfg b₁ b₂).option_value_announcer_chars =
      cfg.option_value_announcer_chars := rfl

theorem saf_embed_quote_char_with_double (cfg : Parser) (b₁ b₂ : Bool) :
    (set_announcer_start_flags cfg b₁ b₂).embed_quote_char_with_double =
      cfg.embed_quote_char_with_double := rfl

theorem saf_escape_char (cfg : Parser) (b₁ b₂ : Bool) :
    (set_announcer_start_flags cfg b₁ b₂).escape_char = cfg.escape_char := rfl

theorem saf_parse_terminate_chars (cfg : Parser) (b₁ b₂ : Bool) :
    (set_announcer_start_flags cfg b₁ b₂).parse_terminate_chars =
      cfg.parse_terminate_chars := rfl

theorem saf_matchers (cfg : Parser) (b₁ b₂ : Bool) :
    (set_announcer_start_flags cfg b₁ b₂).matchers = cfg.matchers := rfl

theorem try_match_option_code_saf (cfg : Parser) (b₁ b₂ : Bool) (code : String)
    (mcodes : Option (List RegexOrText)) :
    try_match_option_code (set_announcer_start_flags cfg b₁ b₂) code mcodes =
      try_match_option_code cfg code mcodes := by
  simp only [try_match_option_code, saf_option_codes_case_sensitive]

theorem try_match_value_text_saf (cfg : Parser) (b₁ b₂ : Bool) (value_text : String)
    (mv : Option RegexOrText) :
    try_match_value_text (set_announcer_start_flags cfg b₁ b₂) value_text mv =
      try_match_value_text cfg value_text mv := by
  simp only [try_match_value_text, saf_option_codes_case_sensitive]

theorem try_match_option_excluding_value_saf (cfg : Parser) (b₁ b₂ : Bool)
    (st : ParseState) (matcher : Matcher) :
    try_match_option_excluding_value (set_announcer_start_flags cfg b₁ b₂) st matcher =
      try_match_option_excluding_value cfg st matcher := by
  simp only [try_match_option_excluding_value, try_match_option_code_saf]

theorem try_match_param_saf (cfg : Parser) (b₁ b₂ : Bool) (st : ParseState)
    (matcher : Matcher) :
    try_match_param (set_announcer_start_flags cfg b₁ b₂) st matcher =
      try_match_param cfg st matcher := by
  simp only [try_match_param, try_match_value_text_saf]

theorem try_match_option_saf (cfg : Parser) (b₁ b₂ : Bool) (st : ParseState)
    (has_value : Bool) (matcher : Matcher) :
    try_match_option (set_announcer_start_flags cfg b₁ b₂) st has_value matcher =
      try_match_option cfg st has_value matcher := by
  simp only [try_match_option, try_match_option_excluding_value_saf, try_match_value_text_saf]

theorem can_option_code_have_value_with_matcher_saf (cfg : Parser) (b₁ b₂ : Bool)
    (st : ParseState) (matcher : Matcher) :
    can_option_code_have_value_with_matcher (set_announcer_start_flags cfg b₁ b₂) st matcher =
      can_option_code_have_value_with_matcher cfg st matcher := by
  simp only [can_option_code_have_value_with_matcher, try_match_option_excluding_value_saf]

theorem can_option_code_have_value_saf (cfg : Parser) (b₁ b₂ : Bool) (st : ParseState) :
    can_option_code_have_value (set_announcer_start_flags cfg b₁ b₂) st =
      can_option_code_have_value cfg st := by
  simp only [can_option_code_have_value, can_option_code_have_value_with_matcher_saf,
    saf_matchers]

theorem can_option_have_value_with_first_char_with_matcher_saf (cfg : Parser)
    (b₁ b₂ : Bool) (st : ParseState) (fc : Bool) (matcher : Matcher) :
    can_option_have_value_with_first_char_with_matcher (set_announcer_start_flags cfg b₁ b₂)
        st fc matcher =
      can_option_have_value_with_first_char_with_matcher cfg st fc matcher := by
  simp only [can_option_have_value_with_first_char_with_matcher,
    try_match_option_excluding_value_saf]

theorem can_option_have_value_with_first_char_loop_saf (cfg : Parser) (b₁ b₂ : Bool)
    (st : ParseState) (fc : Bool) (ms : List Matcher) (acc : OptionHasValueBasedOnFirstChar) :
    can_option_have_value_with_first_char_loop (set_announcer_start_flags cfg b₁ b₂)
        st fc ms acc =
      can_option_have_value_with_first_char_loop cfg st fc ms acc := by
  induction ms generalizing acc with
  | nil => simp only [can_option_have_value_with_first_char_loop]
  | cons m rest ih =>
    simp only [can_option_have_value_with_first_char_loop,
      can_option_have_value_with_first_char_with_matcher_saf]
    split <;> simp [ih]

theorem can_option_have_value_with_first_char_saf (cfg : Parser) (b₁ b₂ : Bool)
    (st : ParseState) (fc : Bool) :
    can_option_have_value_with_first_char (set_announcer_start_flags cfg b₁ b₂) st fc =
      can_option_have_value_with_first_char cfg st fc := by
  simp only [can_option_have_value_with_first_char, saf_matchers,
    can_option_have_value_with_first_char_with_matcher_saf,
    can_option_have_value_with_first_char_loop_saf]

theorem try_find_option_matcher_saf (cfg : Parser) (b₁ b₂ : Bool) (st : ParseState)
    (has_value : Bool) :
    try_find_option_matcher (set_announcer_start_flags cfg b₁ b₂) st has_value =
      try_find_option_matcher cfg st has_value := by
  simp only [try_find_option_matcher, saf_matchers, try_match_option_saf]

theorem match_param_arg_saf (cfg : Parser) (b₁ b₂ : Bool) (st : ParseState)
    (args : List Arg) :
    match_param_arg (set_announcer_start_flags cfg b₁ b₂) st args =
      match_param_arg cfg st args := by
  simp only [match_param_arg, saf_matchers, try_match_param_saf]

theorem match_option_arg_saf (cfg : Parser) (b₁ b₂ : Bool) (st : ParseState)
    (has_value : Bool) (args : List Arg) :
    match_option_arg (set_announcer_start_flags cfg b₁ b₂) st has_value args =
      match_option_arg cfg st has_value args := by
  simp only [match_option_arg, try_find_option_matcher_saf, match_param_arg_saf]

theorem process_char_not_in_arg_saf (cfg : Parser) (b₁ b₂ : Bool) (st : ParseState)
    (char_idx : Nat) (line_char : Char) :
    process_char_not_in_arg (set_announcer_start_flags cfg b₁ b₂) st char_idx line_char =
      process_char_not_in_arg cfg st char_idx line_char := by
  simp only [process_char_not_in_arg, saf_quote_char, saf_option_announcer_chars,
    saf_parse_terminate_chars]

theorem process_char_in_value_saf (cfg : Parser) (b₁ b₂ : Bool) (st : ParseState)
    (line_char : Char) (args : List Arg) :
    process_char_in_value (set_announcer_start_flags cfg b₁ b₂) st line_char args =
      process_char_in_value cfg st line_char args := by
  simp only [process_char_in_value, saf_escape_char, saf_quote_char, match_option_arg_saf]

theorem begin_parsing_option_value_saf (cfg : Parser) (b₁ b₂ : Bool) (st : ParseState)
    (line_char : Char) (args : List Arg) :
    begin_parsing_option_value (set_announcer_start_flags cfg b₁ b₂) st line_char args =
      begin_parsing_option_value cfg st line_char args := by
  simp only [begin_parsing_option_value, process_char_in_value_saf]

theorem process_char_saf (cfg : Parser) (b₁ b₂ : Bool) (st : ParseState)
    (line : String) (char_idx : Nat) (line_char : Char) (args : List Arg) :
    process_char (set_announcer_start_flags cfg b₁ b₂) st line char_idx line_char args =
      process_char cfg st line char_idx line_char args := by
  simp only [process_char, process_char_not_in_arg_saf, process_char_in_value_saf,
    begin_parsing_option_value_saf, match_param_arg_saf, match_option_arg_saf,
    can_option_code_have_value_saf, can_option_have_value_with_first_char_saf,
    saf_quote_char, saf_escape_char, saf_embed_quote_char_with_double,
    saf_option_value_announcer_chars]

theorem parse_loop_saf (cfg : Parser) (b₁ b₂ : Bool) (line : String) (cs : List Char) :
    ∀ (char_idx : Nat) (st : ParseState) (args : List Arg),
    parse_loop (set_announcer_start_flags cfg b₁ b₂) line cs char_idx st args =
      parse_loop cfg line cs char_idx st args := by
  induction cs with
  | nil => intro idx st args; simp only [parse_loop]
  | cons c rest ih =>
    intro idx st args
    simp only [parse_loop, process_char_saf]
    split <;> simp [ih]

theorem parse_finalize_saf (cfg : Parser) (b₁ b₂ : Bool) (line : String)
    (st : ParseState) (args : List Arg) :
    parse_finalize (set_announcer_start_flags cfg b₁ b₂) line st args =
      parse_finalize cfg line st args := by
  simp only [parse_finalize, match_param_arg_saf, match_option_arg_saf,
    can_option_have_value_with_first_char_saf]

theorem initial_parse_state_saf (cfg : Parser) (b₁ b₂ : Bool) (line : String) :
    initial_parse_state (set_announcer_start_flags cfg b₁ b₂) line =
      initial_parse_state cfg line := rfl

/-- Claim C10: for every input line and matcher set, two parses whose configurations
differ only in the option_values_can_start_with_option_announcer_char and
params_can_start_with_option_announcer_char flags produce identical results — these
two configuration fields are never consulted during parsing. -/
theorem c10_announcer_start_flags_unconsulted (cfg : Parser) (b₁ b₂ : Bool)
    (line : String) :
    parse (set_announcer_start_flags cfg b₁ b₂) line = parse cfg line := by
  simp only [parse, parse_loop_saf, initial_parse_state_saf, parse_finalize_saf]

/-- Claim C8 (amended): while scanning an option code (InOption/InCode), a character
leaves the scan state, the accumulators and the result list untouched exactly when
it is NOT a boundary character, where the boundary characters are the value-announcer
chars, whitespace, and the option termination array — which by
create_option_termination_char_array comprises the QUOTE char, the value-announcer
chars and the parse-terminate chars.  In particular the quote char does end the
option code. -/
theorem c8_incode_boundary (cfg : Parser) (st : ParseState) (line : String)
    (char_idx : Nat) (c : Char) (args : List Arg)
    (h1 : st.arg_parse_state = ArgParseState.InOption)
    (h2 : st.option_parse_state = OptionParseState.InCode)
    (h3 : st.option_termination_chars = create_option_termination_char_array cfg) :
    process_char cfg st line char_idx c args = .ok (true, st, args) ↔
      (cfg.option_value_announcer_chars.contains c || c.isWhitespace ||
        (create_option_termination_char_array cfg).contains c) = false := by
  constructor
  · intro hok
    by_cases hcond : (cfg.option_value_announcer_chars.contains c || c.isWhitespace ||
        (create_option_termination_char_array cfg).contains c) = true
    · exfalso
      simp only [process_char, h1, h2, h3, hcond, if_true] at hok
      split at hok
      · cases hok
      · rename_i st1 heq1
        split at hok
        · cases hok
        · split at hok
          · split at hok
            · injection hok with hp1
              injection hp1 with hmore hp2
              injection hp2 with hst hargs
              have hproj := congrArg ParseState.option_parse_state hst
              rw [h2] at hproj
              simp at hproj
            · split at hok
              · split at hok
                · cases hok
                · rename_i st3 args3 heq2
                  injection hok with hp1
                  injection hp1 with hmore hp2
                  injection hp2 with hst hargs
                  have hproj := congrArg ParseState.arg_parse_state hst
                  rw [h1] at hproj
                  simp at hproj
              · cases hok
          · split at hok
            · cases hok
            · rename_i st3 args3 heq2
              injection hok with hp1
              injection hp1 with hmore hp2
              injection hp2 with hst hargs
              have hproj := congrArg ParseState.arg_parse_state hst
              rw [h1] at hproj
              simp at hproj
    · simpa using hcond
  · intro hcond
    simp only [process_char, h1, h2, h3, hcond]
    simp

/-- Witness for C8: the amended boundary equivalence applied at a concrete InCode
cursor and the non-boundary character q, every hypothesis discharged by rfl and the
boundary test by decide. -/
theorem c8_witness :
    process_char (Parser.new []) c8_witness_state "-q" 1 'q' [] =
      .ok (true, c8_witness_state, []) :=
  (c8_incode_boundary (Parser.new []) c8_witness_state "-q" 1 'q' [] rfl rfl rfl).mpr
    (by decide)

/-- Counterexample for C1: with a single matcher (code x, IfPossible) whose value
pattern rejects "value", the retry emits the value-less option, then the Param
re-resolution of "value" fails — and the parse fails with the UNMATCHED-PARAM error
(extra text: the arg ordinal 1), not the unmatched-option error (which would carry
the code x) that the claim asserts. -/
theorem c1_counterexample :
    parse (Parser.new [mx_rej]) "-x value" ≠
      .error (.err (ErrorId.UnmatchedOption, some "x")) ∧
    parse (Parser.new [mx_rej]) "-x value" =
      .error (.err (ErrorId.UnmatchedParam, some "1")) := by
  constructor
  · intro hcontra
    rw [show parse (Parser.new [mx_rej]) "-x value" =
        .error (.err (ErrorId.UnmatchedParam, some "1")) from rfl] at hcontra
    simp at hcontra
  · rfl

/-- Claim C1 (amended): with whitespace as the value announcer and a matcher with
code x and has_value IfPossible, parsing "-x value" yields Option(x, "value") when
the matcher accepts the value; otherwise the parser retries by emitting Option(x,
no value) and re-resolving the buffered "value" as a standalone Param; if that
re-resolution also fails the whole parse fails with an unmatched-PARAM error (an
unmatched-option error would arise only if even the value-less option found no
matcher). -/
theorem c1_ambiguous_value_retry :
    parse (Parser.new [mx_if]) "-x value" =
      .ok [Arg.option ⟨mx_if, 0, 0, 0, "x", some "value"⟩] ∧
    parse (Parser.new [mx_rej, m_param_any]) "-x value" =
      .ok [Arg.option ⟨mx_rej, 0, 0, 0, "x", none⟩,
           Arg.param ⟨m_param_any, 0, 1, 0, "value"⟩] ∧
    parse (Parser.new [mx_rej]) "-x value" =
      .error (.err (ErrorId.UnmatchedParam, some "1")) :=
  ⟨rfl, rfl, rfl⟩

/-- Claim C2 as the code actually behaves: although the dash IS an option announcer
char and the matcher policy is AlwaysButValueMustNotStartWithOptionAnnouncer, parsing
"-x=-1" succeeds with value "-1" — line 348 of src/src/parser.rs tests the first
value character against option_value_announcer_chars rather than
option_announcer_chars, so the OptionValueCannotBeginWithOptionAnnouncer error is
never raised here. -/
theorem c2_first_char_tested_against_value_announcers :
    cfg_c2.option_announcer_chars.contains '-' = true ∧
    parse cfg_c2 "-x=-1" =
      .ok [Arg.option ⟨mx_always_not, 0, 0, 0, "x", some "-1"⟩] :=
  ⟨rfl, rfl⟩

/-- Claim C3 as the code actually behaves: with the multi-char flag set and
announcer dash, set_option_code ACCEPTS the two-character raw code "ab" (no
double-announcer error) and REJECTS the single-character raw code "x" with
OptionCodeMissingDoubleAnnouncer, and empties a multi-character code that starts
with the announcer — the test `raw_option_iterator.next() != None` used for
"one char only" is true exactly when a second character exists, inverting every
branch of the claim. -/
theorem c3_one_char_test_inverted :
    Parmacl.set_option_code
        { Parmacl.ParseState.new "ab" false true with option_announcer_char := '-' } none =
      some (.ok { Parmacl.ParseState.new "ab" false true with
                    option_announcer_char := '-', option_code := "ab" }) ∧
    Parmacl.set_option_code
        { Parmacl.ParseState.new "x" false true with option_announcer_char := '-' } none =
      some (.error ⟨ErrorId.OptionCodeMissingDoubleAnnouncer, 0, 0, 0, "x"⟩) ∧
    Parmacl.set_option_code
        { Parmacl.ParseState.new "-a" false true with option_announcer_char := '-' } none =
      some (.ok { Parmacl.ParseState.new "-a" false true with
                    option_announcer_char := '-', option_code := "" }) :=
  ⟨rfl, rfl, rfl⟩

/-- Claim C4 as the code actually behaves: parameter value matching is governed by
option_codes_case_sensitive, not params_case_sensitive — with codes case-sensitive
the case-insensitive param "a" versus pattern "A" is REJECTED even though
params_case_sensitive is false; flipping params_case_sensitive changes nothing;
clearing option_codes_case_sensitive makes the same parse succeed
(try_match_value_text passes option_codes_case_sensitive to is_match). -/
theorem c4_value_matching_uses_code_flag :
    parse cfg_c4_codes_cs "a" = .error (.err (ErrorId.UnmatchedParam, some "0")) ∧
    parse cfg_c4_both_cs "a" = .error (.err (ErrorId.UnmatchedParam, some "0")) ∧
    parse (Parser.new [m_paramA]) "a" = .ok [Arg.param ⟨m_paramA, 0, 0, 0, "a"⟩] :=
  ⟨rfl, rfl, rfl⟩

/-- Counterexample for C5: two parses that fail at different character offsets and
different arg ordinals (the unmatched option -b is the first argument of the first
line but the second argument of the second) return the IDENTICAL error value, so an
error cannot carry the offset or the current ordinals. -/
theorem c5_counterexample :
    parse (Parser.new [m_only_a]) "-b" =
      .error (.err (ErrorId.UnmatchedOption, some "b")) ∧
    parse (Parser.new [m_only_a]) "p -b" =
      .error (.err (ErrorId.UnmatchedOption, some "b")) :=
  ⟨rfl, rfl⟩

/-- Claim C5 (amended): an error of the scanner carries the error kind plus at most
one extra text — the offending option code, value text, or a character index — and
not the arg/option/param ordinals or, in general, the offset; the parse_state error
constructors of src/parmacl carry the character offset, the arg ordinal, the option
ordinal and the offending code or value text, but no param ordinal
(create_param_error passes the option ordinal). -/
theorem c5_error_payloads :
    (∀ (st : Parmacl.ParseState) (id : ErrorId),
      (Parmacl.create_option_error st id).error_id = id ∧
      (Parmacl.create_option_error st id).line_char_idx = st.line_char_idx ∧
      (Parmacl.create_option_error st id).arg_idx = st.arg_count ∧
      (Parmacl.create_option_error st id).other_idx = st.option_count ∧
      (Parmacl.create_option_error st id).text = st.option_code ∧
      (Parmacl.create_param_error st id).error_id = id ∧
      (Parmacl.create_param_error st id).line_char_idx = st.line_char_idx ∧
      (Parmacl.create_param_error st id).arg_idx = st.arg_count ∧
      (Parmacl.create_param_error st id).other_idx = st.option_count ∧
      (Parmacl.create_param_error st id).text = st.value_bldr) ∧
    create_error ErrorId.UnmatchedOption (some "b") =
      (ErrorId.UnmatchedOption, some "b") ∧
    parse (Parser.new [m_only_a]) "x -b" =
      .error (.err (create_error ErrorId.UnmatchedOption (some "b"))) :=
  ⟨fun _ _ => ⟨rfl, rfl, rfl, rfl, rfl, rfl, rfl, rfl, rfl, rfl⟩, rfl, rfl⟩

/-- Counterexample for C7: input ending in the AwaitingValue state ("-x=", value
announced by a non-whitespace announcer, IfPossible matcher) does NOT complete the
option — the end-of-input re-run classifies it Must and the parse FAILS with
NoMatchSupportsValueForOptionCode, contradicting "completing the option ... rather
than the parse failing". -/
theorem c7_counterexample :
    parse cfg_c7_eq "-x=" =
      .error (.err (ErrorId.NoMatchSupportsValueForOptionCode, some "x")) := rfl

/-- Claim C7 (amended): when input ends in the AwaitingValue state the
Must/Possibly/MustNot decision is re-run with no first character; on Possibly (or
MustNot) the option is completed WITHOUT a value, while on Must the parse fails
with NoMatchSupportsValueForOptionCode. -/
theorem c7_eoi_waitvalue :
    parse (Parser.new [mx_if]) "-x " =
      .ok [Arg.option ⟨mx_if, 0, 0, 0, "x", none⟩] ∧
    parse cfg_c7_eq "-x=" =
      .error (.err (ErrorId.NoMatchSupportsValueForOptionCode, some "x")) :=
  ⟨rfl, rfl⟩

/-- Counterexample for C8: the quote char DOES end an option code — parsing the
line -a"b under the default configuration finalizes the option code as a at the
quote (the quote char is part of the option termination array), then parses b as a
separate param; under the claim the code would have accumulated a"b. -/
theorem c8_counterexample :
    parse (Parser.new []) "-a\"b" =
      .ok [Arg.option ⟨fallback_matcher, 0, 0, 0, "a", none⟩,
           Arg.param ⟨fallback_matcher, 3, 1, 0, "b"⟩] := rfl

/-- Claim C9 as the code actually behaves: parse is NOT total.  First conjunct: with
a Never matcher for code x listed before an IfPossible matcher for x, the scan of
"-x v" reaches the Never arm of can_option_have_value_with_first_char_with_matcher,
which is Rust's unreachable macro — a panic.  Second conjunct: set_option_code of
src/parmacl/src/parse_state.rs slices the line with code-point counters used as
byte offsets, so on the two-code-point line "aé" (3 bytes) the slice end falls
inside the second character and Rust panics (modelled by none). -/
theorem c9_parse_panics :
    parse (Parser.new [m_never_x, mx_if]) "-x v" =
      .error (.panicked never_branch_site) ∧
    Parmacl.set_option_code (Parmacl.ParseState.new "aé" false false) none = none :=
  ⟨rfl, rfl⟩
